import Mathlib

/-
Verification development for the aria2 Telegram download bot
(src/download_bot.py).  The job registry (`DownloadTracker`), the
formatting helpers, the submission handlers, the bulk-cancel callback and
the per-job tracking loop (`track_download`) are embedded as executable
Lean definitions, and the behavioural claims about them are settled as
theorems below.

Modelling conventions:
* Python dicts become functions into `Option` (`String → Option DInfo`
  etc.); `d[k] = v` is a pointwise functional update, `del d[k]` maps the
  key to `none`.
* Python float arithmetic (the ETA estimate, progress percentages, size
  formatting) is modelled by exact rational / integer floor arithmetic;
  `int(x)` on a non-negative float quotient is integer floor division.
* Network effects are passed in explicitly: every RPC interaction is a
  value of an environment type describing the daemon's response
  (a JSON result, a JSON error object, or a transport fault), and the code
  paths that issue requests return the list of RPC calls they made.
-/

/-! ## Job registry: class DownloadTracker (download_bot.py lines 52-77) -/

/-- Metadata stored per active download, mirroring the dict built in
`DownloadTracker.add_download` (lines 59-64): user id, display name,
chat id and start time (the `datetime.now()` value is passed in
explicitly as `start_time`). -/
structure DInfo where
  user_id : Nat
  name : String
  chat_id : Int
  start_time : Nat
  deriving DecidableEq, Repr

/-- Failed-download record, mirroring lines 353-355: a copy of the active
entry (possibly an empty dict, hence `Option DInfo`) plus the attached
error text. -/
structure FInfo where
  info : Option DInfo
  error : String
  deriving DecidableEq, Repr

/-- Global state of `DownloadTracker` (lines 52-56): `active_downloads`,
`failed_downloads`, and the per-user index `user_downloads`. Dicts are
modelled as functions into `Option`. -/
structure Tracker where
  active : String → Option DInfo
  failed : String → Option FInfo
  user_downloads : Nat → Option (List String)

/-- Empty tracker state (all three dicts empty). -/
def emptyTracker : Tracker :=
  { active := fun _ => none, failed := fun _ => none, user_downloads := fun _ => none }

/-- Embedding of `DownloadTracker.add_download` (lines 58-67): store the
metadata under `gid` (overwriting any previous entry — the source has no
presence check), create the owner's index list if missing, and append
`gid` to it. -/
def add_download (gid : String) (user_id : Nat) (name : String) (chat_id : Int)
    (now : Nat) (t : Tracker) : Tracker :=
  { active := fun g =>
      if g = gid then
        some { user_id := user_id, name := name, chat_id := chat_id, start_time := now }
      else t.active g
    failed := t.failed
    user_downloads := fun u =>
      if u = user_id then some ((t.user_downloads user_id).getD [] ++ [gid])
      else t.user_downloads u }

/-- Embedding of `DownloadTracker.remove_download` (lines 69-74): no-op if
`gid` is not an active key; otherwise remove the first occurrence of `gid`
from the owner's index list (Python `list.remove`, guarded by membership,
is `List.erase`) and delete the active entry. -/
def remove_download (gid : String) (t : Tracker) : Tracker :=
  match t.active gid with
  | none => t
  | some info =>
    { active := fun g => if g = gid then none else t.active g
      failed := t.failed
      user_downloads := fun u =>
        if u = info.user_id then (t.user_downloads u).map (fun l => l.erase gid)
        else t.user_downloads u }

/-- Embedding of `DownloadTracker.get_user_downloads` (lines 76-77):
`self.user_downloads.get(user_id, [])`. -/
def get_user_downloads (t : Tracker) (user_id : Nat) : List String :=
  (t.user_downloads user_id).getD []

/-! ## Formatting helpers (lines 106-136) -/

/-- Rendering of the non-negative fraction `num / den` with one decimal
digit, the model of Python's format specifier `:.1f` applied to the float
quotient: the value is scaled by ten and rounded to the nearest integer
(exact half-ties rounded up here; Python rounds the nearest double,
agreeing except on exact ties, which no claim touches). Requires
`den ≠ 0`. -/
def fmt1Frac (num den : Nat) : String :=
  let m := (20 * num + den) / (2 * den)
  toString (m / 10) ++ "." ++ toString (m % 10)

/-- Recursive unit loop of `format_size` (lines 111-115): Python divides
the float by 1024 per step; modelled exactly by growing the denominator,
so the compared value is `num / den`. -/
def sizeLoop (num den : Nat) : List String → String
  | [] => fmt1Frac num den ++ " PB"
  | u :: us =>
    if num < 1024 * den then fmt1Frac num den ++ " " ++ u
    else sizeLoop num (1024 * den) us

/-- Embedding of `format_size` (lines 106-115). -/
def format_size (bytes_size : Nat) : String :=
  if bytes_size = 0 then "0 B"
  else sizeLoop bytes_size 1 ["B", "KB", "MB", "GB", "TB"]

/-- Embedding of `format_speed` (lines 117-119). -/
def format_speed (bytes_per_sec : Nat) : String :=
  format_size bytes_per_sec ++ "/s"

/-- Remaining-seconds quotient of `estimate_time` (lines 126-127).
Python computes `remaining_bytes / speed` in float arithmetic and
truncates with `int`; this is modelled by exact integer floor division
(`Nat` division), with which the branch thresholds 60 and 3600, the
truncations and the divmod renderings of lines 129-136 agree. -/
def remainingSeconds (completed : Nat) (total : Nat) (speed : Nat) : Nat :=
  (total - completed) / speed

/-- Embedding of the three format branches of `estimate_time`
(lines 129-136), on the floored remaining-seconds value. -/
def etaFormat (rs : Nat) : String :=
  if rs < 60 then toString rs ++ "s"
  else if rs < 3600 then toString (rs / 60) ++ "m " ++ toString (rs % 60) ++ "s"
  else toString (rs / 3600) ++ "h " ++ toString ((rs % 3600) / 60) ++ "m"

def estimate_time (completed : Nat) (total : Nat) (speed : Nat) : String :=
  if speed = 0 ∨ total ≤ completed then "N/A"
  else etaFormat (remainingSeconds completed total speed)

/-- Embedding of line 319: the percentage used in the rendered progress
message, `(completed / total) * 100 if total > 0 else 0`. -/
def progressPercent (completed : Nat) (total : Nat) : ℚ :=
  if 0 < total then ((completed : ℚ) / (total : ℚ)) * 100 else 0

/-- Modelled from the spec: the progress formula the specification states,
`completedBytes / max(totalBytes, 1)` (as a percentage), written here only
to be compared with `progressPercent`, the formula of the source. -/
def specProgressPercent (completed : Nat) (total : Nat) : ℚ :=
  ((completed : ℚ) / ((max total 1 : Nat) : ℚ)) * 100

/-- Embedding of lines 321-331: the ten-slot progress bar and the rendered
progress message text.  The percentage of line 319 (`progressPercent`) is
rendered with one decimal as `fmt1Frac (100 * completed) total`, and
`int(progress // 10)` is its floor divided by 10, i.e.
`10 * completed / total`; Python's negative string repetition (when the
percentage exceeds 100) yields the empty string, matching truncated `Nat`
subtraction. -/
def renderMessage (name : String) (statusStr : String)
    (completed : Nat) (total : Nat) (speed : Nat) : String :=
  let progressStr := if 0 < total then fmt1Frac (100 * completed) total else fmt1Frac 0 1
  let k : Nat := if 0 < total then 10 * completed / total else 0
  let bar := String.mk (List.replicate k '█') ++ String.mk (List.replicate (10 - k) '░')
  "📦 <b>" ++ name ++ "</b>\n" ++
  "Progress: " ++ progressStr ++ "%\n" ++
  "[" ++ bar ++ "]\n" ++
  "Status: " ++ statusStr ++ "\n" ++
  "Size: " ++ format_size completed ++ " / " ++ format_size total ++ "\n" ++
  "Speed: " ++ format_speed speed ++ "\n" ++
  "ETA: " ++ estimate_time completed total speed

/-! ## RPC modelling (aria2_request, lines 81-104) -/

/-- Status object returned by `aria2.tellStatus`, with exactly the keys the
loop reads; absent keys are `none` (the source reads them with `.get` and
defaults).  The nested `bittorrent.info.name` access of lines 312-313 is
flattened: `bittorrent = some x` means the `bittorrent` and `info` keys are
present, and `x` is the optional `name` inside `info`. -/
structure Aria2Status where
  status : Option String
  completedLength : Option Nat
  totalLength : Option Nat
  downloadSpeed : Option Nat
  errorMessage : Option String
  bittorrent : Option (Option String)
  deriving DecidableEq, Repr

/-- JSON-RPC response body from the daemon: an optional `error` object
(member `message`) and an optional `result`. -/
structure RpcResponse where
  error : Option String
  result : Option Aria2Status
  deriving DecidableEq, Repr

/-- One poll interaction with the daemon: either a JSON response arrived,
or the transport failed (timeout, network fault, non-2xx status). -/
inductive PollOutcome where
  | respond (r : RpcResponse)
  | netFail (msg : String)
  deriving DecidableEq, Repr

/-- Embedding of `aria2_request` for a `tellStatus` poll (lines 91-104):
a transport fault raises; a response whose JSON carries an `error` member
raises `Exception("Aria2 error: ...")` (lines 97-99); otherwise the call
returns `result.get('result')`, which may be absent. -/
def aria2_request (p : PollOutcome) : Except String (Option Aria2Status) :=
  match p with
  | .netFail m => .error m
  | .respond r =>
    match r.error with
    | some m => .error ("Aria2 error: " ++ m)
    | none => .ok r.result

/-! ## Submission handlers (handle_text, handle_file, start_download) -/

/-- RPC methods invoked by the handlers, used to count calls. -/
inductive RpcCall where
  | tellActive
  | removeGid (gid : String)
  | purgeDownloadResult
  | addUri (uris : List String)
  | addTorrent
  | tellStatus (gid : String)
  deriving DecidableEq, Repr

/-- True for the two RPC start methods (`aria2.addUri`, `aria2.addTorrent`). -/
def isStartCall : RpcCall → Bool
  | .addUri _ => true
  | .addTorrent => true
  | _ => false

/-- User-visible outcome of a submission, abstracting the `reply_text`
calls of `handle_text` / `handle_file` / `start_download`. -/
inductive Reply where
  | limitReached
  | invalidInput
  | torrentOnly
  | started (name : String)
  | failedStart
  | errorReply (msg : String)
  deriving DecidableEq, Repr

/-- Download kind dispatched by `handle_text` (line 190/192). -/
inductive DType where
  | magnet
  | url
  deriving DecidableEq, Repr

/-- Hexadecimal digit test for the 40-character btih hash of the magnet
regex (line 189). -/
def isHexChar (c : Char) : Bool :=
  c.isDigit || ('a' ≤ c && c ≤ 'f') || ('A' ≤ c && c ≤ 'F')

/-- ASCII model of the regex class `\s` (line 191). -/
def isSpaceChar (c : Char) : Bool :=
  c = ' ' || c = '\t' || c = '\n' || c = '\r' || c = '\x0b' || c = '\x0c'

/-- Embedding of the magnet-link regex match of line 189:
`re.match(r'magnet:\?xt=urn:btih:[a-fA-F0-9]\x7b40\x7d', text, re.I)` —
a case-insensitive literal head followed by forty hex digits, anchored at
the start only. -/
def magnetMatch (s : String) : Bool :=
  let ps := "magnet:?xt=urn:btih:".data
  let cs := s.data
  decide (ps.length + 40 ≤ cs.length) &&
  ((cs.take ps.length).zip ps).all (fun p => p.1.toLower = p.2.toLower) &&
  ((cs.drop ps.length).take 40).all isHexChar

/-- Case-insensitive literal prefix stripping, used for the URL scheme
alternation `(https?|ftp)` under `re.I`. -/
def stripCaseless (pat : List Char) (cs : List Char) : Option (List Char) :=
  match pat, cs with
  | [], rest => some rest
  | _ :: _, [] => none
  | p :: ps, c :: rest => if c.toLower = p.toLower then stripCaseless ps rest else none

/-- Embedding of the URL regex match of line 191:
`^(https?|ftp)://[^\s/$.?#].[^\s]*$` — scheme, `://`, one character
outside the excluded class, one further arbitrary non-newline character,
then non-whitespace to the end (`$` modelled as end of string, `\s` as
ASCII whitespace). -/
def urlMatch (s : String) : Bool :=
  let cs := s.data
  let afterScheme :=
    match stripCaseless "https://".data cs with
    | some r => some r
    | none =>
      match stripCaseless "http://".data cs with
      | some r => some r
      | none => stripCaseless "ftp://".data cs
  match afterScheme with
  | none => false
  | some rest =>
    match rest with
    | x :: y :: zs =>
      !(isSpaceChar x) && !(x = '/' || x = '$' || x = '.' || x = '?' || x = '#') &&
      !(y = '\n') && zs.all (fun c => !(isSpaceChar c))
    | _ => false

/-- Helper for `urlPathName`: drop characters until just past the first
occurrence of the separator, if any. -/
def dropThrough (sep : List Char) : List Char → Option (List Char)
  | [] => if sep = [] then some [] else none
  | c :: rest =>
    if sep.isPrefixOf (c :: rest) then some ((c :: rest).drop sep.length)
    else dropThrough sep rest

/-- Modelled from line 253, `Path(urlparse(content).path).name`: the last
non-empty segment of the URL's path component (query and fragment cut
off), or the empty string if there is none.  Claim-neutral: no claim
depends on the precise name derived. -/
def urlPathName (url : String) : String :=
  match dropThrough "://".data url.data with
  | none => ""
  | some afterScheme =>
    let pathOn := afterScheme.dropWhile (fun c => !(c = '/'))
    let path := pathOn.takeWhile (fun c => !(c = '?' || c = '#'))
    let segs := (String.mk path).splitOn "/"
    ((segs.filter (fun seg => !(seg = ""))).getLast?).getD ""

/-- Environment for `start_download` (lines 242-285): the result of the
best-effort Content-Disposition probe (lines 254-265, `none` when absent
or failed), and the outcome of the `aria2.addUri` call — an exception, a
falsy gid, or a gid string. -/
structure StartEnv where
  headerName : Option String
  addResult : Except String (Option String)

/-- Embedding of `start_download` (lines 242-285), minus the fire-and-spawn
of the tracking task (modelled separately by `runTrack`): resolve the
display name, issue the `addUri` call, and on a gid register the job via
`add_download`.  Exceptions surface as `Reply.errorReply`. -/
def start_download (t : Tracker) (user_id : Nat) (chat_id : Int) (now : Nat)
    (dtype : DType) (content : String) (env : StartEnv) : Tracker × List RpcCall × Reply :=
  match dtype with
  | .magnet =>
    match env.addResult with
    | .error e => (t, [.addUri [content]], .errorReply e)
    | .ok none => (t, [.addUri [content]], .failedStart)
    | .ok (some gid) =>
      (add_download gid user_id "Magnet Link" chat_id now t, [.addUri [content]],
        .started "Magnet Link")
  | .url =>
    let pathName := urlPathName content
    let baseName := if pathName = "" then "download" else pathName
    let name := env.headerName.getD baseName
    match env.addResult with
    | .error e => (t, [.addUri [content]], .errorReply e)
    | .ok none => (t, [.addUri [content]], .failedStart)
    | .ok (some gid) =>
      (add_download gid user_id name chat_id now t, [.addUri [content]], .started name)

/-- Embedding of `handle_text` (lines 176-199): strip the text, reject at
the concurrency limit before anything else (lines 182-187), then dispatch
on the magnet / URL regexes, else reject as invalid input. -/
def handle_text (maxConc : Nat) (t : Tracker) (user_id : Nat) (chat_id : Int)
    (now : Nat) (rawText : String) (env : StartEnv) : Tracker × List RpcCall × Reply :=
  let text := rawText.trim
  if maxConc ≤ (get_user_downloads t user_id).length then (t, [], .limitReached)
  else if magnetMatch text then start_download t user_id chat_id now .magnet text env
  else if urlMatch text then start_download t user_id chat_id now .url text env
  else (t, [], .invalidInput)

/-- Model of `document.file_name.lower().endswith('.torrent')` (line 206),
computed on the character list (ASCII case folding via `Char.toLower`). -/
def isTorrentName (s : String) : Bool :=
  ".torrent".data.isSuffixOf (s.data.map Char.toLower)

/-- Environment for `handle_file` (lines 201-240): the outcome of fetching
and base64-encoding the document (lines 218-226, an exception or the
encoded content) and the outcome of the `aria2.addTorrent` call. -/
structure FileEnv where
  fetch : Except String String
  addResult : Except String (Option String)

/-- Embedding of `handle_file` (lines 201-240): reject non-`.torrent`
names, then reject at the concurrency limit before any RPC (lines
210-215), then fetch the file and issue `addTorrent`; a gid registers the
job. -/
def handle_file (maxConc : Nat) (t : Tracker) (user_id : Nat) (chat_id : Int)
    (now : Nat) (fileName : String) (env : FileEnv) : Tracker × List RpcCall × Reply :=
  if !(isTorrentName fileName) then (t, [], .torrentOnly)
  else if maxConc ≤ (get_user_downloads t user_id).length then (t, [], .limitReached)
  else
    match env.fetch with
    | .error e => (t, [], .errorReply e)
    | .ok _ =>
      match env.addResult with
      | .error e => (t, [.addTorrent], .errorReply e)
      | .ok none => (t, [.addTorrent], .failedStart)
      | .ok (some gid) =>
        (add_download gid user_id fileName chat_id now t, [.addTorrent], .started fileName)

/-! ## Bulk cancel (cancel_downloads_callback, lines 447-462) -/

/-- Environment for the cancel callback: the `tellActive` outcome (an
exception, a falsy result — iterating over it raises — or the list of
active gids), the per-gid `remove` outcomes, and the
`purgeDownloadResult` outcome. -/
structure CancelEnv where
  tellActiveResult : Except String (Option (List String))
  removeResult : String → Except String Unit
  purgeResult : Except String Unit

/-- Sweep over the active gids (lines 450-457): issue `aria2.remove` per
gid, aborting to the `except` handler on the first exception; after the
list, issue `purgeDownloadResult` and, if it succeeds, clear all three
tracker dicts. -/
def cancel_sweep (env : CancelEnv) : List String → Tracker → List RpcCall →
    Tracker × List RpcCall × Bool
  | [], t, acc =>
    match env.purgeResult with
    | .error _ => (t, acc ++ [RpcCall.purgeDownloadResult], false)
    | .ok _ => (emptyTracker, acc ++ [RpcCall.purgeDownloadResult], true)
  | g :: gs, t, acc =>
    match env.removeResult g with
    | .error _ => (t, acc ++ [RpcCall.removeGid g], false)
    | .ok _ => cancel_sweep env gs t (acc ++ [RpcCall.removeGid g])

/-- Embedding of `cancel_downloads_callback` (lines 447-462).  The `Bool`
result is `true` when the success message is reached, `false` when the
`except` handler reports a cancel error; the call list records every RPC
issued before the outcome. -/
def cancel_downloads (env : CancelEnv) (t : Tracker) : Tracker × List RpcCall × Bool :=
  match env.tellActiveResult with
  | .error _ => (t, [RpcCall.tellActive], false)
  | .ok none => (t, [RpcCall.tellActive], false)
  | .ok (some gids) => cancel_sweep env gids t [RpcCall.tellActive]

/-! ## Tracking loop (track_download, lines 287-376) -/

/-- Loop-local mutable state of `track_download`: the current display name,
the last successfully sent message text (line 290), and the shared
tracker. -/
structure LoopState where
  name : String
  lastMessageText : String
  tracker : Tracker

/-- Environment of one loop iteration: either an unexpected exception
escapes the iteration body to the outer handler (line 369), or the
iteration runs with the given poll outcome, progress-edit outcome
(`editOk = false` models a `TelegramError` from `msg.edit_text`,
line 338) and final-edit outcome (`finalEditOk = false` models an
exception from the terminal `msg.edit_text`, which line 365 catches,
continuing the loop). -/
inductive IterEnv where
  | crash
  | iter (poll : PollOutcome) (editOk : Bool) (finalEditOk : Bool)
  deriving Repr

/-- Notifier interactions of the loop: the initial / failure
`send_message` posts and the `edit_text` invocations (progress edits,
line 336, and terminal edits, line 362). -/
inductive Emission where
  | post (text : String)
  | editProgress (text : String)
  | editFinal (text : String)
  deriving DecidableEq, Repr

/-- Texts of the progress-edit invocations, in order. -/
def progressTexts (ems : List Emission) : List String :=
  ems.filterMap fun e =>
    match e with
    | .editProgress t => some t
    | _ => none

/-- Step outcome: continue the while loop with a new state, or leave it
(break, or propagation to the outer handler) with the tracker as mutated
so far. -/
inductive StepOut where
  | next (ls : LoopState)
  | stop (tr : Tracker)

/-- Embedding of lines 311-314: if the status carries
`bittorrent.info`, refresh the loop-local name (defaulting to the current
one when `info` has no `name` key) and write it into the registry entry. -/
def btUpdate (gid : String) (st : Aria2Status) (ls : LoopState) : LoopState :=
  match st.bittorrent with
  | none => ls
  | some btn =>
    let n := btn.getD ls.name
    { name := n
      lastMessageText := ls.lastMessageText
      tracker :=
        { active := fun g =>
            if g = gid then (ls.tracker.active g).map (fun i =>
              { user_id := i.user_id, name := n, chat_id := i.chat_id,
                start_time := i.start_time })
            else ls.tracker.active g
          failed := ls.tracker.failed
          user_downloads := ls.tracker.user_downloads } }

/-- Embedding of lines 353-355: copy the active entry (possibly absent)
into `failed_downloads[gid]` and attach the error text. -/
def recordFailure (gid : String) (msg : String) (t : Tracker) : Tracker :=
  { active := t.active
    failed := fun g => if g = gid then some { info := t.active gid, error := msg } else t.failed g
    user_downloads := t.user_downloads }

/-- Test of line 342: `status.get('status') in ['complete', 'error', 'removed']`. -/
def isTerminal (s : Option String) : Bool :=
  s = some "complete" || s = some "error" || s = some "removed"

/-- The progress text rendered in one iteration (lines 316-331), after the
name refresh: completed defaults to 0, total to 1, speed to 0. -/
def renderedText (gid : String) (st : Aria2Status) (ls : LoopState) : String :=
  renderMessage (btUpdate gid st ls).name (st.status.getD "N/A")
    (st.completedLength.getD 0) (st.totalLength.getD 1) (st.downloadSpeed.getD 0)

/-- Iteration body for a successfully decoded status (lines 311-363):
name refresh, render, throttled progress edit (emitted only when the text
differs from the last successfully sent text; the stored text advances
only when the edit succeeds), then the terminal-state block — a failed
terminal edit is caught by the inner handler of line 365 and the loop
continues with the mutations retained. -/
def stepStatus (gid : String) (st : Aria2Status) (editOk : Bool) (finalEditOk : Bool)
    (ls : LoopState) : StepOut × List Emission :=
  let ls1 := btUpdate gid st ls
  let total := st.totalLength.getD 1
  let text := renderedText gid st ls
  let ems1 : List Emission :=
    if text = ls.lastMessageText then [] else [Emission.editProgress text]
  let last1 : String :=
    if text = ls.lastMessageText then ls.lastMessageText
    else if editOk then text else ls.lastMessageText
  if isTerminal st.status then
    let err := st.errorMessage.getD "Unknown error"
    let tr2 :=
      if st.status = some "complete" then ls1.tracker
      else recordFailure gid err ls1.tracker
    let finalText :=
      if st.status = some "complete" then
        "✅ <b>Completed: " ++ ls1.name ++ "</b>\n" ++ "Size: " ++ format_size total ++ "\n"
      else
        "❌ <b>Failed: " ++ ls1.name ++ "</b>\n" ++ "Error: " ++
          (st.errorMessage.getD "Unknown error")
    let ems := ems1 ++ [Emission.editFinal finalText]
    if finalEditOk then (.stop tr2, ems)
    else (.next { name := ls1.name, lastMessageText := last1, tracker := tr2 }, ems)
  else
    (.next { name := ls1.name, lastMessageText := last1, tracker := ls1.tracker }, ems1)

/-- One iteration of the while body (lines 300-367): an escaping exception
reaches the outer handler (which posts a failure notice and falls through
to `finally`); a poll exception is caught at line 365 and the loop
retries; a falsy status breaks out of the loop (lines 305-307); a real
status runs `stepStatus`. -/
def trackStep (gid : String) (e : IterEnv) (ls : LoopState) : StepOut × List Emission :=
  match e with
  | .crash => (.stop ls.tracker, [Emission.post ("❌ Tracking failed for " ++ ls.name)])
  | .iter p editOk finalEditOk =>
    match aria2_request p with
    | .error _ => (.next ls, [])
    | .ok none => (.stop ls.tracker, [])
    | .ok (some st) => stepStatus gid st editOk finalEditOk ls

/-- The while loop of lines 300-363 over a finite trace of iteration
environments, followed by the `finally` of lines 374-376: every exit path
applies `remove_download`.  `Sum.inl` means the loop is still live after
consuming the trace; `Sum.inr` carries the tracker after `finally` ran. -/
def runTrackAux (gid : String) : List IterEnv → LoopState →
    Sum LoopState Tracker × List Emission
  | [], ls =>
    if (ls.tracker.active gid).isSome then (Sum.inl ls, [])
    else (Sum.inr (remove_download gid ls.tracker), [])
  | e :: es, ls =>
    if (ls.tracker.active gid).isSome then
      match trackStep gid e ls with
      | (StepOut.next ls', ems) =>
        let r := runTrackAux gid es ls'
        (r.1, ems ++ r.2)
      | (StepOut.stop tr, ems) => (Sum.inr (remove_download gid tr), ems)
    else (Sum.inr (remove_download gid ls.tracker), [])

/-- Embedding of `track_download` (lines 287-376): post the initial
message (its failure reaches the outer handler directly, line 369, and
still runs `finally`), then run the polling loop. -/
def runTrack (gid : String) (sendOk : Bool) (envs : List IterEnv) (ls : LoopState) :
    Sum LoopState Tracker × List Emission :=
  if sendOk then
    let r := runTrackAux gid envs ls
    (r.1, Emission.post ("📦 <b>" ++ ls.name ++ "</b>\nStatus: Preparing...") :: r.2)
  else
    (Sum.inr (remove_download gid ls.tracker),
      [Emission.post ("❌ Tracking failed for " ++ ls.name)])

/-- Registry well-formedness relative to one job id: wherever `gid`
appears in a user's index list, that user is the recorded owner of the
active entry and the occurrence is unique.  This holds in every state the
running bot reaches (each daemon gid is registered at most once while
active) and is what `remove_download`'s single-occurrence erase relies
on. -/
def wfFor (gid : String) (t : Tracker) : Prop :=
  ∀ u l, t.user_downloads u = some l → gid ∈ l →
    ((∃ i, t.active gid = some i ∧ i.user_id = u) ∧ l.count gid ≤ 1)

/-- All progress edits in the trace succeed (no `TelegramError` on
`msg.edit_text`). -/
def editsOk : List IterEnv → Bool
  | [] => true
  | IterEnv.crash :: es => editsOk es
  | IterEnv.iter _ ek _ :: es => ek && editsOk es

/-! ## Concrete fixtures used by witnesses and counterexamples -/

/-- Fixture job metadata. -/
def info0 : DInfo := { user_id := 7, name := "file.bin", chat_id := 10, start_time := 0 }

/-- Fixture tracker holding exactly one active job "g" owned by user 7. -/
def tracker1 : Tracker :=
  { active := fun g => if g = "g" then some info0 else none
    failed := fun _ => none
    user_downloads := fun u => if u = 7 then some ["g"] else none }

/-- Fixture loop state for job "g". -/
def ls0 : LoopState := { name := "file.bin", lastMessageText := "", tracker := tracker1 }

/-- Fixture active (non-terminal) status. -/
def st0 : Aria2Status :=
  { status := some "active", completedLength := some 0, totalLength := some 100,
    downloadSpeed := some 0, errorMessage := none, bittorrent := none }

/-- Fixture terminal status `removed` with no daemon error message. -/
def stRemoved : Aria2Status :=
  { status := some "removed", completedLength := some 0, totalLength := some 100,
    downloadSpeed := some 0, errorMessage := none, bittorrent := none }

/-- Fixture tracker with two active jobs "a" and "b" for the cancel sweep. -/
def tr2jobs : Tracker :=
  { active := fun g => if g = "a" then some info0 else if g = "b" then some info0 else none
    failed := fun _ => none
    user_downloads := fun u => if u = 7 then some ["a", "b"] else none }

/-- Fixture cancel environment: two active jobs, the remove of "a" raises,
everything else succeeds. -/
def cancelEnvFail : CancelEnv :=
  { tellActiveResult := .ok (some ["a", "b"])
    removeResult := fun g => if g = "a" then .error "boom" else .ok ()
    purgeResult := .ok () }

/-- Fixture cancel environment in which every call succeeds. -/
def cancelEnvOk : CancelEnv :=
  { tellActiveResult := .ok (some ["a", "b"])
    removeResult := fun _ => .ok ()
    purgeResult := .ok () }

/-- Fixture loop state whose last successfully sent text already equals
the text that `st0` renders, exercising the throttle guard. -/
def lsEq : LoopState :=
  { name := "file.bin"
    lastMessageText := renderMessage "file.bin" "active" 0 100 0
    tracker := tracker1 }

/-- Fixture trace: the same status polled twice, the first progress edit
failing with a `TelegramError`, the second succeeding. -/
def dupTrace : List IterEnv :=
  [IterEnv.iter (PollOutcome.respond { error := none, result := some st0 }) false true,
   IterEnv.iter (PollOutcome.respond { error := none, result := some st0 }) true true]

/-! ## Helper lemmas -/

/-- A string obtained by appending a final character other than `'A'` is
never the literal `"N/A"`. -/
theorem append_ne_NA (a : String) (c : Char) (hc : c ≠ 'A') :
    a ++ String.mk [c] ≠ "N/A" := by
  intro h
  have hd : a.data ++ [c] = ['N', '/', 'A'] := congrArg String.data h
  have h2 := congrArg List.getLast? hd
  rw [List.getLast?_concat] at h2
  exact hc (Option.some.inj h2)

/-- Behaviour of `remove_download` on an absent id (lines 70): no-op. -/
theorem remove_download_eq_of_none (t : Tracker) (gid : String)
    (h : t.active gid = none) : remove_download gid t = t := by
  unfold remove_download
  rw [h]

/-- Behaviour of `remove_download` on a present id (lines 70-74). -/
theorem remove_download_eq_of_active (t : Tracker) (gid : String) (info : DInfo)
    (h : t.active gid = some info) :
    remove_download gid t =
      { active := fun g => if g = gid then none else t.active g
        failed := t.failed
        user_downloads := fun u =>
          if u = info.user_id then (t.user_downloads u).map (fun l => l.erase gid)
          else t.user_downloads u } := by
  unfold remove_download
  rw [h]

/-! ## Claim C9 — ETA estimator -/

/-- Claim C9: the ETA estimator returns the unavailable marker `"N/A"` if
and only if the speed is zero or the remaining byte count is non-positive;
otherwise it formats the floored quotient of remaining bytes by speed as
seconds, minutes+seconds, or hours+minutes by magnitude — including the
four concrete values the specification lists. -/
theorem estimate_time_spec :
    (∀ completed total speed : Nat,
        estimate_time completed total speed = "N/A" ↔
          (speed = 0 ∨ total ≤ completed)) ∧
    estimate_time 50 100 0 = "N/A" ∧
    estimate_time 100 100 1 = "N/A" ∧
    estimate_time 0 120 60 = "2s" ∧
    estimate_time 0 3700 1 = "1h 1m" := by
  refine ⟨?_, by decide, by decide, by decide, by decide⟩
  intro c t s
  constructor
  · intro h
    by_contra hn
    rw [estimate_time, if_neg hn] at h
    rw [etaFormat] at h
    split at h
    · exact append_ne_NA _ 's' (by decide) h
    · split at h
      · exact append_ne_NA _ 's' (by decide) h
      · exact append_ne_NA _ 'm' (by decide) h
  · intro h
    rw [estimate_time, if_pos h]

/-- Witness for `estimate_time_spec`: the biconditional instantiated at a
concrete zero-speed input. -/
theorem estimate_time_spec_witness :
    estimate_time 50 100 0 = "N/A" ↔ (0 = 0 ∨ 100 ≤ 50) :=
  estimate_time_spec.1 50 100 0

/-! ## Claim C5 — duplicate registration -/

/-- Claim C5 counterexample: registering the same id twice does not fail
and does not leave the registry unchanged — `add_download` has no presence
check, so the id ends up twice in the owner's index list. -/
theorem duplicate_register_cex :
    (add_download "g" 1 "n" 10 0 (add_download "g" 1 "n" 10 0 emptyTracker)).user_downloads 1 =
      some ["g", "g"] ∧
    (add_download "g" 1 "n" 10 0 emptyTracker).user_downloads 1 = some ["g"] :=
  ⟨rfl, rfl⟩

/-- Claim C5 amended: `add_download` never fails; it unconditionally
overwrites the active-table entry for the id and appends the id to the
owner's index, so a repeated registration strictly increases the
occurrence count of the id in that index. -/
theorem register_overwrites_appends (gid : String) (uid : Nat) (n : String)
    (c : Int) (now : Nat) (t : Tracker) :
    (add_download gid uid n c now t).active gid =
      some { user_id := uid, name := n, chat_id := c, start_time := now } ∧
    (add_download gid uid n c now t).user_downloads uid =
      some ((t.user_downloads uid).getD [] ++ [gid]) ∧
    (((add_download gid uid n c now t).user_downloads uid).getD []).count gid =
      ((t.user_downloads uid).getD []).count gid + 1 := by
  refine ⟨by simp [add_download], by simp [add_download], ?_⟩
  simp [add_download]

/-! ## Claim C7 — register then unregister -/

/-- Claim C7 counterexample: from the empty registry (where the per-user
index has no key at all for the owner), `register` followed by
`unregister` does not return exactly the prior state — it leaves an empty
list bound to the owner's key in the per-user index. -/
theorem register_unregister_residue_cex :
    (remove_download "g" (add_download "g" 1 "n" 10 0 emptyTracker)).user_downloads 1 =
      some [] ∧
    emptyTracker.user_downloads 1 = none ∧
    remove_download "g" (add_download "g" 1 "n" 10 0 emptyTracker) ≠ emptyTracker := by
  refine ⟨rfl, rfl, ?_⟩
  intro h
  have h2 : (some ([] : List String)) = (none : Option (List String)) :=
    congrArg (fun tr => tr.user_downloads 1) h
  exact Option.some_ne_none _ h2

/-- Claim C7 amended: for a state not containing the id, `register`
followed by `unregister` restores the active table, the failed records and
every other user's index exactly, and restores the owner's index up to an
explicit empty-or-prior list bound at the owner's key (an empty-list
residue when the key was absent); and `unregister` is idempotent —
applying it twice for the same id equals applying it once. -/
theorem register_unregister_amended :
    (∀ (t : Tracker) (gid : String) (uid : Nat) (n : String) (c : Int) (now : Nat),
        t.active gid = none →
        (∀ u l, t.user_downloads u = some l → gid ∉ l) →
        (remove_download gid (add_download gid uid n c now t)).active = t.active ∧
        (remove_download gid (add_download gid uid n c now t)).failed = t.failed ∧
        (∀ u, u ≠ uid →
          (remove_download gid (add_download gid uid n c now t)).user_downloads u =
            t.user_downloads u) ∧
        (remove_download gid (add_download gid uid n c now t)).user_downloads uid =
          some ((t.user_downloads uid).getD [])) ∧
    (∀ (t : Tracker) (gid : String),
        remove_download gid (remove_download gid t) = remove_download gid t) := by
  constructor
  · intro t gid uid n c now hact hmem
    have hactive1 : (add_download gid uid n c now t).active gid =
        some { user_id := uid, name := n, chat_id := c, start_time := now } := by
      simp [add_download]
    rw [remove_download_eq_of_active _ _ _ hactive1]
    refine ⟨?_, rfl, ?_, ?_⟩
    · funext g
      by_cases hg : g = gid
      · subst hg
        simp [hact]
      · simp [add_download, hg]
    · intro u hu
      simp [add_download, hu]
    · have hnotin : gid ∉ (t.user_downloads uid).getD [] := by
        cases ht : t.user_downloads uid with
        | none => simp
        | some l => simpa using hmem uid l ht
      simp only [add_download, if_pos rfl]
      simp [List.erase_append_right _ hnotin]
  · intro t gid
    cases hact : t.active gid with
    | none =>
      rw [remove_download_eq_of_none t gid hact]
      exact remove_download_eq_of_none t gid hact
    | some info =>
      have h2 : (remove_download gid t).active gid = none := by
        rw [remove_download_eq_of_active t gid info hact]
        simp
      rw [remove_download_eq_of_none _ _ h2]

/-- Witness for `register_unregister_amended`: a concrete register /
unregister round trip from the empty registry, and a concrete double
unregister. -/
theorem register_unregister_amended_witness :
    (remove_download "k" (add_download "k" 2 "x" 5 0 emptyTracker)).active =
      emptyTracker.active ∧
    (remove_download "k" (add_download "k" 2 "x" 5 0 emptyTracker)).user_downloads 2 =
      some [] ∧
    remove_download "k" (remove_download "k" emptyTracker) =
      remove_download "k" emptyTracker := by
  have h := register_unregister_amended.1 emptyTracker "k" 2 "x" 5 0 rfl
    (by intro u l hl; simp [emptyTracker] at hl)
  exact ⟨h.1, by simpa using h.2.2.2, register_unregister_amended.2 emptyTracker "k"⟩

/-! ## Claim C1 — concurrency limit checked before any RPC -/

/-- Claim C1: when a user's count of registered jobs is at least the
configured per-user limit, a new submission — text (URL or magnet) or a
torrent file — is rejected with the limit-reached reply, no RPC call at
all (in particular no `addUri` / `addTorrent` start call) is issued, and
the registry is returned unchanged. -/
theorem limit_blocks_submission (maxConc : Nat) (t : Tracker) (user_id : Nat)
    (chat_id : Int) (now : Nat) (text : String) (env : StartEnv)
    (fileName : String) (fenv : FileEnv)
    (h : maxConc ≤ (get_user_downloads t user_id).length) :
    handle_text maxConc t user_id chat_id now text env = (t, [], Reply.limitReached) ∧
    (isTorrentName fileName = true →
      handle_file maxConc t user_id chat_id now fileName fenv = (t, [], Reply.limitReached)) := by
  constructor
  · simp [handle_text, h]
  · intro hf
    simp [handle_file, hf, h]

/-- Witness for `limit_blocks_submission`: user 7 holds one active job and
the limit is one, so a URL submission and a torrent submission are both
rejected with no RPC call. -/
theorem limit_blocks_submission_witness :
    handle_text 1 tracker1 7 10 0 "http://example.com/a.bin"
        { headerName := none, addResult := .ok (some "h") } =
      (tracker1, [], Reply.limitReached) ∧
    handle_file 1 tracker1 7 10 0 "x.torrent"
        { fetch := .ok "content", addResult := .ok (some "h") } =
      (tracker1, [], Reply.limitReached) := by
  have h := limit_blocks_submission 1 tracker1 7 10 0 "http://example.com/a.bin"
    { headerName := none, addResult := .ok (some "h") } "x.torrent"
    { fetch := .ok "content", addResult := .ok (some "h") } (by decide)
  exact ⟨h.1, h.2 (by decide)⟩

/-! ## Claim C4 — bulk cancel -/

/-- Claim C4 counterexample: with two active jobs where the remove of the
first raises, the sweep aborts — only one remove call is issued, no purge
call is issued, the success path is not reached, and the registry still
holds both jobs (nothing is cleared). -/
theorem cancel_all_abort_cex :
    (cancel_downloads cancelEnvFail tr2jobs).2.1 =
      [RpcCall.tellActive, RpcCall.removeGid "a"] ∧
    (cancel_downloads cancelEnvFail tr2jobs).2.2 = false ∧
    (cancel_downloads cancelEnvFail tr2jobs).1.active "a" = some info0 ∧
    (cancel_downloads cancelEnvFail tr2jobs).1.active "b" = some info0 ∧
    RpcCall.purgeDownloadResult ∉ (cancel_downloads cancelEnvFail tr2jobs).2.1 ∧
    RpcCall.removeGid "b" ∉ (cancel_downloads cancelEnvFail tr2jobs).2.1 :=
  ⟨rfl, rfl, rfl, rfl, by decide, by decide⟩

/-- Sweep lemma: when every remove and the purge succeed, the sweep issues
one remove per gid in order, then the purge, and clears all tracker
state. -/
theorem cancel_sweep_ok (env : CancelEnv) (hp : env.purgeResult = .ok ()) :
    ∀ (gids : List String) (t : Tracker) (acc : List RpcCall),
      (∀ g ∈ gids, env.removeResult g = .ok ()) →
      cancel_sweep env gids t acc =
        (emptyTracker, acc ++ gids.map RpcCall.removeGid ++ [RpcCall.purgeDownloadResult],
          true) := by
  intro gids
  induction gids with
  | nil =>
    intro t acc _
    simp [cancel_sweep, hp]
  | cons g gs ih =>
    intro t acc hall
    have hg : env.removeResult g = .ok () := hall g (List.mem_cons_self g gs)
    simp only [cancel_sweep, hg]
    rw [ih t (acc ++ [RpcCall.removeGid g]) (fun x hx => hall x (List.mem_cons_of_mem g hx))]
    simp

/-- Claim C4 amended: `cancel_downloads` issues remove calls in order only
up to the first failure.  When the active listing succeeds and every
remove and the purge succeed, it issues exactly one remove per active job
and one purge, and empties the whole registry (active table, per-user
index) together with the failed records; but a remove failure aborts the
sweep — no further remove and no purge is issued and the registry is left
untouched. -/
theorem cancel_all_amended :
    (∀ (env : CancelEnv) (t : Tracker) (gids : List String),
        env.tellActiveResult = .ok (some gids) →
        (∀ g ∈ gids, env.removeResult g = .ok ()) →
        env.purgeResult = .ok () →
        cancel_downloads env t =
          (emptyTracker,
            RpcCall.tellActive :: gids.map RpcCall.removeGid ++
              [RpcCall.purgeDownloadResult],
            true)) ∧
    (∀ (env : CancelEnv) (t : Tracker) (e : String) (g : String) (gs : List String),
        env.tellActiveResult = .ok (some (g :: gs)) →
        env.removeResult g = .error e →
        cancel_downloads env t = (t, [RpcCall.tellActive, RpcCall.removeGid g], false)) := by
  constructor
  · intro env t gids hta hall hp
    rw [cancel_downloads, hta]
    exact cancel_sweep_ok env hp gids t [RpcCall.tellActive] hall
  · intro env t e g gs hta hg
    rw [cancel_downloads, hta]
    show cancel_sweep env (g :: gs) t [RpcCall.tellActive] = _
    simp [cancel_sweep, hg]

/-- Witness for `cancel_all_amended`: both conjuncts at concrete
environments with two active jobs. -/
theorem cancel_all_amended_witness :
    cancel_downloads cancelEnvOk tr2jobs =
      (emptyTracker,
        RpcCall.tellActive :: [RpcCall.removeGid "a", RpcCall.removeGid "b"] ++
          [RpcCall.purgeDownloadResult],
        true) ∧
    cancel_downloads cancelEnvFail tr2jobs =
      (tr2jobs, [RpcCall.tellActive, RpcCall.removeGid "a"], false) := by
  constructor
  · exact cancel_all_amended.1 cancelEnvOk tr2jobs ["a", "b"] rfl
      (by intro g _; rfl) rfl
  · exact cancel_all_amended.2 cancelEnvFail tr2jobs "boom" "a" ["b"] rfl rfl

/-! ## Claim C8 — progress percentage -/

/-- Claim C8 counterexample: the percentage of line 319 is not clamped —
at completed 200 of total 100 it is 200, above 100 — and it is not the
spec's `completed / max(total, 1)` formula: at total 0 with completed 5
the code yields 0 while the spec formula yields 500. -/
theorem progress_clamp_cex :
    progressPercent 200 100 = 200 ∧
    ¬ progressPercent 200 100 ≤ 100 ∧
    progressPercent 5 0 = 0 ∧
    specProgressPercent 5 0 = 500 := by
  refine ⟨by norm_num [progressPercent], by norm_num [progressPercent],
    by norm_num [progressPercent], by norm_num [specProgressPercent]⟩

/-- Claim C8 amended: the rendered percentage is
`completed / total * 100` when total is positive and 0 when total is zero;
it is never negative, but it is not clamped above: it lies within
`[0, 100]` exactly when total is zero or completed does not exceed
total. -/
theorem progress_percent_amended (completed total : Nat) :
    0 ≤ progressPercent completed total ∧
    (progressPercent completed total ≤ 100 ↔ (total = 0 ∨ completed ≤ total)) := by
  unfold progressPercent
  rcases Nat.eq_zero_or_pos total with h0 | hpos
  · subst h0
    norm_num
  · rw [if_pos hpos]
    have ht : (0 : ℚ) < (total : ℚ) := by exact_mod_cast hpos
    constructor
    · positivity
    · rw [div_mul_eq_mul_div, div_le_iff₀ ht]
      constructor
      · intro h
        right
        have hc : (completed : ℚ) ≤ (total : ℚ) := by linarith
        exact_mod_cast hc
      · intro h
        rcases h with h | h
        · omega
        · have hc : (completed : ℚ) ≤ (total : ℚ) := by exact_mod_cast h
          linarith

/-- Witness for `progress_percent_amended`: the characterization at the
unclamped input 200 of 100. -/
theorem progress_percent_amended_witness :
    0 ≤ progressPercent 200 100 ∧
    (progressPercent 200 100 ≤ 100 ↔ ((100 : Nat) = 0 ∨ 200 ≤ 100)) :=
  progress_percent_amended 200 100

/-! ## Claim C3 — unknown-job poll reports -/

/-- Claim C3 counterexample: when the daemon explicitly reports the polled
gid unknown — a JSON-RPC error response such as "GID g is not found",
which `aria2_request` turns into a raised exception — the tracking loop
does not retire the job: the iteration falls into the generic poll-failure
handler, the state is unchanged, the job is still registered, and the loop
is still live (`Sum.inl`), ready to poll again on the next tick. -/
theorem unknown_job_retry_cex :
    runTrackAux "g"
        [IterEnv.iter (PollOutcome.respond { error := some "GID g is not found", result := none })
          true true] ls0 =
      (Sum.inl ls0, []) ∧
    (ls0.tracker.active "g").isSome = true :=
  ⟨rfl, rfl⟩

/-- Claim C3 amended: a daemon report that the job is unknown arrives as a
JSON-RPC error response, which `aria2_request` raises; the loop's generic
poll-failure handler then logs and retries on the next tick with the state
unchanged — it does not stop polling.  The loop performs the
treat-as-removed retirement only when a poll returns successfully with a
null status. -/
theorem unknown_job_amended :
    (∀ (m : String) (res : Option Aria2Status),
        aria2_request (PollOutcome.respond { error := some m, result := res }) =
          Except.error ("Aria2 error: " ++ m)) ∧
    (∀ (gid : String) (p : PollOutcome) (m : String) (es : List IterEnv)
        (ek fk : Bool) (ls : LoopState),
        aria2_request p = Except.error m →
        (ls.tracker.active gid).isSome = true →
        runTrackAux gid (IterEnv.iter p ek fk :: es) ls = runTrackAux gid es ls) ∧
    (∀ (gid : String) (ek fk : Bool) (ls : LoopState),
        (ls.tracker.active gid).isSome = true →
        runTrackAux gid
            [IterEnv.iter (PollOutcome.respond { error := none, result := none }) ek fk] ls =
          (Sum.inr (remove_download gid ls.tracker), [])) := by
  refine ⟨fun m res => rfl, ?_, ?_⟩
  · intro gid p m es ek fk ls hp h2
    have hstep : trackStep gid (IterEnv.iter p ek fk) ls = (StepOut.next ls, []) := by
      simp [trackStep, hp]
    simp [runTrackAux, h2, hstep]
  · intro gid ek fk ls h2
    have hstep :
        trackStep gid (IterEnv.iter (PollOutcome.respond { error := none, result := none }) ek fk)
          ls = (StepOut.stop ls.tracker, []) := rfl
    simp [runTrackAux, h2, hstep]

/-- Witness for `unknown_job_amended`: the retry conjunct and the
null-status retirement conjunct at the concrete fixture state. -/
theorem unknown_job_amended_witness :
    runTrackAux "g"
        [IterEnv.iter (PollOutcome.respond { error := some "GID g is not found", result := none })
          true true] ls0 =
      runTrackAux "g" [] ls0 ∧
    runTrackAux "g"
        [IterEnv.iter (PollOutcome.respond { error := none, result := none }) true true] ls0 =
      (Sum.inr (remove_download "g" ls0.tracker), []) :=
  ⟨unknown_job_amended.2.1 "g"
      (PollOutcome.respond { error := some "GID g is not found", result := none })
      "Aria2 error: GID g is not found" [] true true ls0 rfl rfl,
    unknown_job_amended.2.2 "g" true true ls0 rfl⟩

/-! ## Claim C10 — failed records on terminal statuses -/

/-- The `finally` retirement never touches the failed-records table. -/
theorem remove_download_failed_eq (gid : String) (t : Tracker) :
    (remove_download gid t).failed = t.failed := by
  unfold remove_download
  split <;> rfl

/-- After the `finally` retirement the id is absent from the active table,
whether or not it was present before. -/
theorem remove_download_active_self (gid : String) (t : Tracker) :
    (remove_download gid t).active gid = none := by
  cases hact : t.active gid with
  | none => rw [remove_download_eq_of_none t gid hact]; exact hact
  | some info => rw [remove_download_eq_of_active t gid info hact]; simp

/-- The mid-iteration name refresh never touches the failed-records
table. -/
theorem btUpdate_failed_eq (gid : String) (st : Aria2Status) (ls : LoopState) :
    (btUpdate gid st ls).tracker.failed = ls.tracker.failed := by
  unfold btUpdate
  cases st.bittorrent <;> rfl

/-- The mid-iteration name refresh preserves presence in the active
table. -/
theorem btUpdate_active_isSome (gid : String) (st : Aria2Status) (ls : LoopState) :
    ((btUpdate gid st ls).tracker.active gid).isSome = (ls.tracker.active gid).isSome := by
  unfold btUpdate
  cases st.bittorrent with
  | none => rfl
  | some btn => simp

/-- Terminal non-complete iteration with a successful final edit: the step
leaves the loop carrying the failure-recorded tracker. -/
theorem stepStatus_terminal_stop (gid : String) (st : Aria2Status) (ek : Bool)
    (ls : LoopState) (hterm : isTerminal st.status = true)
    (hnc : ¬ st.status = some "complete") :
    (stepStatus gid st ek true ls).1 =
      StepOut.stop (recordFailure gid (st.errorMessage.getD "Unknown error")
        (btUpdate gid st ls).tracker) := by
  simp [stepStatus, hterm, hnc]

/-- Terminal complete iteration with a successful final edit: the step
leaves the loop without recording a failure. -/
theorem stepStatus_complete_stop (gid : String) (st : Aria2Status) (ek : Bool)
    (ls : LoopState) (hc : st.status = some "complete") :
    (stepStatus gid st ek true ls).1 = StepOut.stop (btUpdate gid st ls).tracker := by
  simp [stepStatus, isTerminal, hc]

/-- A single-iteration run whose step stops with tracker `tr` retires the
job from `tr`. -/
theorem runTrackAux_single_stop (gid : String) (e : IterEnv) (ls : LoopState)
    (tr : Tracker) (h : (ls.tracker.active gid).isSome = true)
    (hstep : (trackStep gid e ls).1 = StepOut.stop tr) :
    (runTrackAux gid [e] ls).1 = Sum.inr (remove_download gid tr) := by
  have hpair : trackStep gid e ls = (StepOut.stop tr, (trackStep gid e ls).2) :=
    Prod.ext hstep rfl
  rw [runTrackAux, if_pos h, hpair]

/-- Claim C10: on a terminal poll the loop records a failed-job entry —
copying the job's (name-refreshed) metadata and attaching the daemon's
error message, defaulting to "Unknown error" — for status `removed` just
as for status `error`, before retiring the job; of the three terminal
statuses only `complete` leaves the failed records unchanged.  Stated for
an iteration whose final edit succeeds (otherwise line 365 catches the
edit failure and the same block re-runs on the next tick). -/
theorem removed_records_failure (gid : String) (ls : LoopState) (st : Aria2Status)
    (ek : Bool) (h : (ls.tracker.active gid).isSome = true) :
    ((st.status = some "removed" ∨ st.status = some "error") →
      ∀ t',
        (runTrackAux gid
            [IterEnv.iter (PollOutcome.respond { error := none, result := some st }) ek true]
            ls).1 = Sum.inr t' →
        t'.active gid = none ∧
        t'.failed gid =
          some { info := (btUpdate gid st ls).tracker.active gid,
                 error := st.errorMessage.getD "Unknown error" }) ∧
    (isTerminal st.status = true →
      Sum.isRight
        (runTrackAux gid
            [IterEnv.iter (PollOutcome.respond { error := none, result := some st }) ek true]
            ls).1 = true) ∧
    (st.status = some "complete" →
      ∀ t',
        (runTrackAux gid
            [IterEnv.iter (PollOutcome.respond { error := none, result := some st }) ek true]
            ls).1 = Sum.inr t' →
        t'.failed = ls.tracker.failed) := by
  have htrack :
      trackStep gid (IterEnv.iter (PollOutcome.respond { error := none, result := some st }) ek true)
        ls = stepStatus gid st ek true ls := rfl
  refine ⟨?_, ?_, ?_⟩
  · intro hterm t' ht'
    have hnc : ¬ st.status = some "complete" := by
      rcases hterm with hs | hs <;> simp [hs]
    have hterm' : isTerminal st.status = true := by
      rcases hterm with hs | hs <;> simp [isTerminal, hs]
    have hstop := stepStatus_terminal_stop gid st ek ls hterm' hnc
    have hrun := runTrackAux_single_stop gid _ ls _ h (htrack ▸ hstop)
    rw [hrun] at ht'
    have ht'' := Sum.inr.inj ht'
    subst ht''
    refine ⟨remove_download_active_self _ _, ?_⟩
    rw [remove_download_failed_eq]
    simp [recordFailure]
  · intro hterm'
    by_cases hc : st.status = some "complete"
    · have hstop := stepStatus_complete_stop gid st ek ls hc
      have hrun := runTrackAux_single_stop gid _ ls _ h (htrack ▸ hstop)
      rw [hrun]
      rfl
    · have hstop := stepStatus_terminal_stop gid st ek ls hterm' hc
      have hrun := runTrackAux_single_stop gid _ ls _ h (htrack ▸ hstop)
      rw [hrun]
      rfl
  · intro hc t' ht'
    have hstop := stepStatus_complete_stop gid st ek ls hc
    have hrun := runTrackAux_single_stop gid _ ls _ h (htrack ▸ hstop)
    rw [hrun] at ht'
    have ht'' := Sum.inr.inj ht'
    subst ht''
    rw [remove_download_failed_eq]
    exact btUpdate_failed_eq gid st ls

/-- Witness for `removed_records_failure`: a `removed` status with no
daemon error message at the fixture state records a failed entry with the
default error text, and the job is retired. -/
theorem removed_records_failure_witness :
    (remove_download "g" (recordFailure "g" "Unknown error"
        (btUpdate "g" stRemoved ls0).tracker)).active "g" = none ∧
    (remove_download "g" (recordFailure "g" "Unknown error"
        (btUpdate "g" stRemoved ls0).tracker)).failed "g" =
      some { info := (btUpdate "g" stRemoved ls0).tracker.active "g",
             error := "Unknown error" } := by
  have h := (removed_records_failure "g" ls0 stRemoved true rfl).1 (Or.inl rfl)
    (remove_download "g" (recordFailure "g" "Unknown error"
      (btUpdate "g" stRemoved ls0).tracker)) rfl
  simpa using h

/-! ## Claim C6 — progress-edit throttle -/

/-- Progress-text extraction distributes over emission concatenation. -/
theorem progressTexts_append (a b : List Emission) :
    progressTexts (a ++ b) = progressTexts a ++ progressTexts b :=
  List.filterMap_append a b _

/-- When the rendered text equals the last successfully sent text, the
iteration emits no progress edit (whatever the terminal flags are). -/
theorem stepStatus_pt_of_eq (gid : String) (st : Aria2Status) (ek fk : Bool)
    (ls : LoopState) (htxt : renderedText gid st ls = ls.lastMessageText) :
    progressTexts (stepStatus gid st ek fk ls).2 = [] := by
  by_cases hterm : isTerminal st.status = true <;>
    cases fk <;> simp [stepStatus, htxt, hterm, progressTexts]

/-- When the rendered text differs from the last successfully sent text,
the iteration emits exactly one progress edit carrying that text. -/
theorem stepStatus_pt_of_ne (gid : String) (st : Aria2Status) (ek fk : Bool)
    (ls : LoopState) (htxt : ¬ renderedText gid st ls = ls.lastMessageText) :
    progressTexts (stepStatus gid st ek fk ls).2 = [renderedText gid st ls] := by
  by_cases hterm : isTerminal st.status = true <;>
    cases fk <;> simp [stepStatus, htxt, hterm, progressTexts]

/-- With a successful progress edit, an iteration that continues the loop
leaves the stored last-sent text equal to the rendered text when an edit
was emitted, and unchanged otherwise. -/
theorem stepStatus_last_next (gid : String) (st : Aria2Status) (fk : Bool)
    (ls ls' : LoopState)
    (h : (stepStatus gid st true fk ls).1 = StepOut.next ls') :
    ls'.lastMessageText =
      (if renderedText gid st ls = ls.lastMessageText then ls.lastMessageText
       else renderedText gid st ls) := by
  by_cases htxt : renderedText gid st ls = ls.lastMessageText <;>
    by_cases hterm : isTerminal st.status = true <;>
      cases fk <;>
        simp_all [stepStatus, htxt, hterm] <;>
          subst h <;> rfl

/-- Chain invariant of the throttle: as long as every progress edit in the
trace succeeds, the last successfully sent text followed by the emitted
progress texts has no two adjacent equal entries. -/
theorem throttle_chain_aux (gid : String) :
    ∀ (envs : List IterEnv) (ls : LoopState),
      editsOk envs = true →
      List.Chain' (fun a b => ¬ a = b)
        (ls.lastMessageText :: progressTexts (runTrackAux gid envs ls).2) := by
  intro envs
  induction envs with
  | nil =>
    intro ls _
    by_cases hact : (ls.tracker.active gid).isSome = true <;>
      simp [runTrackAux, hact, progressTexts]
  | cons e es ih =>
    intro ls hok
    by_cases hact : (ls.tracker.active gid).isSome = true
    · rw [runTrackAux, if_pos hact]
      cases e with
      | crash =>
        simp [trackStep, progressTexts]
      | iter p ek fk =>
        have hok' : ek = true ∧ editsOk es = true := by simpa [editsOk] using hok
        obtain ⟨hek, hokes⟩ := hok'
        subst hek
        cases haria : aria2_request p with
        | error m =>
          have hstep : trackStep gid (IterEnv.iter p true fk) ls = (StepOut.next ls, []) := by
            simp [trackStep, haria]
          rw [hstep]
          simpa [progressTexts] using ih ls hokes
        | ok os =>
          cases os with
          | none =>
            have hstep : trackStep gid (IterEnv.iter p true fk) ls =
                (StepOut.stop ls.tracker, []) := by
              simp [trackStep, haria]
            rw [hstep]
            simp [progressTexts]
          | some st =>
            have hstep : trackStep gid (IterEnv.iter p true fk) ls =
                stepStatus gid st true fk ls := by
              simp [trackStep, haria]
            rw [hstep]
            rcases hss : stepStatus gid st true fk ls with ⟨out, ems⟩
            have hems : (stepStatus gid st true fk ls).2 = ems := by rw [hss]
            have hout : (stepStatus gid st true fk ls).1 = out := by rw [hss]
            cases out with
            | next ls' =>
              show List.Chain' (fun a b => ¬ a = b)
                (ls.lastMessageText :: progressTexts (ems ++ (runTrackAux gid es ls').2))
              rw [progressTexts_append]
              by_cases htxt : renderedText gid st ls = ls.lastMessageText
              · have hpt : progressTexts ems = [] := by
                  rw [← hems]
                  exact stepStatus_pt_of_eq gid st true fk ls htxt
                have hlast : ls'.lastMessageText = ls.lastMessageText := by
                  have hl := stepStatus_last_next gid st fk ls ls' hout
                  rwa [if_pos htxt] at hl
                have hih := ih ls' hokes
                rw [hlast] at hih
                simpa [hpt] using hih
              · have hpt : progressTexts ems = [renderedText gid st ls] := by
                  rw [← hems]
                  exact stepStatus_pt_of_ne gid st true fk ls htxt
                have hlast : ls'.lastMessageText = renderedText gid st ls := by
                  have hl := stepStatus_last_next gid st fk ls ls' hout
                  rwa [if_neg htxt] at hl
                have hih := ih ls' hokes
                rw [hlast] at hih
                rw [hpt]
                exact List.chain'_cons.mpr ⟨fun hcontra => htxt hcontra.symm, hih⟩
            | stop tr =>
              show List.Chain' (fun a b => ¬ a = b)
                (ls.lastMessageText :: progressTexts ems)
              by_cases htxt : renderedText gid st ls = ls.lastMessageText
              · have hpt : progressTexts ems = [] := by
                  rw [← hems]
                  exact stepStatus_pt_of_eq gid st true fk ls htxt
                rw [hpt]
                exact List.chain'_singleton _
              · have hpt : progressTexts ems = [renderedText gid st ls] := by
                  rw [← hems]
                  exact stepStatus_pt_of_ne gid st true fk ls htxt
                rw [hpt]
                exact List.chain'_pair.mpr fun hcontra => htxt hcontra.symm
    · rw [runTrackAux, if_neg hact]
      simp [progressTexts]

/-- Claim C6 counterexample: when a progress edit fails (a `TelegramError`
from the transport, e.g. a rate limit), the last-sent text is not advanced
and the next iteration re-emits the very same text — two consecutive
emitted progress edits for the same job carrying identical text, so the
edit is invoked twice for one distinct rendered text. -/
theorem duplicate_edit_cex :
    progressTexts (runTrackAux "g" dupTrace ls0).2 =
      [renderedText "g" st0 ls0, renderedText "g" st0 ls0] ∧
    ¬ List.Chain' (fun a b => ¬ a = b) (progressTexts (runTrackAux "g" dupTrace ls0).2) := by
  have h1 : progressTexts (runTrackAux "g" dupTrace ls0).2 =
      [renderedText "g" st0 ls0, renderedText "g" st0 ls0] := by decide
  refine ⟨h1, ?_⟩
  intro hch
  rw [h1] at hch
  exact List.chain'_pair.mp hch rfl

/-- Claim C6 amended: rendering is deterministic, and on every iteration
no progress edit is emitted when the newly rendered text equals the last
text successfully sent; consequently, as long as every emitted progress
edit succeeds, no two consecutive emitted progress edits carry identical
text — but after a failed edit the same text may be emitted again (see the
counterexample). -/
theorem throttle_amended :
    (∀ (gid : String) (st : Aria2Status) (ek fk : Bool) (ls : LoopState),
        renderedText gid st ls = ls.lastMessageText →
        progressTexts
          (trackStep gid
            (IterEnv.iter (PollOutcome.respond { error := none, result := some st }) ek fk)
            ls).2 = []) ∧
    (∀ (gid : String) (sendOk : Bool) (envs : List IterEnv) (ls : LoopState),
        editsOk envs = true →
        List.Chain' (fun a b => ¬ a = b)
          (progressTexts (runTrack gid sendOk envs ls).2)) ∧
    (∀ (gid : String) (st₁ st₂ : Aria2Status) (ls₁ ls₂ : LoopState),
        st₁ = st₂ → ls₁ = ls₂ → renderedText gid st₁ ls₁ = renderedText gid st₂ ls₂) := by
  refine ⟨?_, ?_, ?_⟩
  · intro gid st ek fk ls h
    exact stepStatus_pt_of_eq gid st ek fk ls h
  · intro gid sendOk envs ls hok
    cases sendOk with
    | false => simp [runTrack, progressTexts]
    | true =>
      have hch := throttle_chain_aux gid envs ls hok
      have : progressTexts (runTrack gid true envs ls).2 =
          progressTexts (runTrackAux gid envs ls).2 := by
        simp [runTrack, progressTexts]
      rw [this]
      exact hch.tail
  · intro gid st₁ st₂ ls₁ ls₂ h1 h2
    rw [h1, h2]

/-- Witness for `throttle_amended`: the guard at a state whose last-sent
text equals the rendered text, and the chain property on a concrete
all-successful one-poll run. -/
theorem throttle_amended_witness :
    progressTexts
      (trackStep "g"
        (IterEnv.iter (PollOutcome.respond { error := none, result := some st0 }) true true)
        lsEq).2 = [] ∧
    List.Chain' (fun a b => ¬ a = b)
      (progressTexts (runTrack "g" true
        [IterEnv.iter (PollOutcome.respond { error := none, result := some st0 }) true true]
        ls0).2) :=
  ⟨throttle_amended.1 "g" st0 true true lsEq rfl,
    throttle_amended.2.1 "g" true
      [IterEnv.iter (PollOutcome.respond { error := none, result := some st0 }) true true]
      ls0 rfl⟩

/-! ## Claim C2 — every loop exit retires the job -/

/-- The mid-iteration name refresh (which rewrites only the name inside
the active entry) preserves registry well-formedness for the job. -/
theorem wfFor_btUpdate (gid : String) (st : Aria2Status) (ls : LoopState)
    (h : wfFor gid ls.tracker) : wfFor gid (btUpdate gid st ls).tracker := by
  unfold btUpdate
  cases st.bittorrent with
  | none => exact h
  | some btn =>
    intro u l hl hm
    obtain ⟨⟨i, hi, hui⟩, hc⟩ := h u l hl hm
    refine ⟨⟨{ i with name := btn.getD ls.name }, ?_, hui⟩, hc⟩
    simp [hi]

/-- Recording a failed-download entry touches neither the active table nor
the per-user index, hence preserves well-formedness. -/
theorem wfFor_recordFailure (gid : String) (msg : String) (t : Tracker)
    (h : wfFor gid t) : wfFor gid (recordFailure gid msg t) :=
  fun u l hl hm => h u l hl hm

/-- Retiring a job under well-formedness removes it from every user's
index list. -/
theorem remove_download_not_in_index (gid : String) (t : Tracker)
    (h : wfFor gid t) :
    ∀ u l, (remove_download gid t).user_downloads u = some l → gid ∉ l := by
  cases hact : t.active gid with
  | none =>
    rw [remove_download_eq_of_none t gid hact]
    intro u l hl hm
    obtain ⟨⟨i, hi, _⟩, _⟩ := h u l hl hm
    rw [hact] at hi
    exact Option.noConfusion hi
  | some info =>
    rw [remove_download_eq_of_active t gid info hact]
    intro u l hl hm
    by_cases hu : u = info.user_id
    · subst hu
      simp only [if_pos rfl] at hl
      cases hud : t.user_downloads info.user_id with
      | none => rw [hud] at hl; exact Option.noConfusion hl
      | some l0 =>
        rw [hud] at hl
        have hl' : l0.erase gid = l := Option.some.inj hl
        subst hl'
        have hmem0 : gid ∈ l0 := List.mem_of_mem_erase hm
        obtain ⟨_, hcount⟩ := h info.user_id l0 hud hmem0
        have hpos : 0 < (l0.erase gid).count gid := List.count_pos_iff.mpr hm
        rw [List.count_erase_self] at hpos
        omega
    · simp only [if_neg hu] at hl
      obtain ⟨⟨i, hi, hui⟩, _⟩ := h u l hl hm
      rw [hact] at hi
      have hii : info = i := Option.some.inj hi
      exact hu (by rw [← hui, ← hii])

/-- Every tracker carried out of one iteration of the loop body — whether
the loop continues or stops — is the current tracker transformed by at
most the name refresh and the failed-record write, so well-formedness is
preserved across iterations. -/
theorem trackStep_wf (gid : String) (e : IterEnv) (ls : LoopState)
    (h : wfFor gid ls.tracker) :
    (∀ ls' ems, trackStep gid e ls = (StepOut.next ls', ems) → wfFor gid ls'.tracker) ∧
    (∀ tr ems, trackStep gid e ls = (StepOut.stop tr, ems) → wfFor gid tr) := by
  cases e with
  | crash =>
    constructor
    · intro ls' ems hstep
      simp [trackStep] at hstep
    · intro tr ems hstep
      simp [trackStep] at hstep
      rw [← hstep.1]
      exact h
  | iter p ek fk =>
    cases haria : aria2_request p with
    | error m =>
      constructor
      · intro ls' ems hstep
        simp [trackStep, haria] at hstep
        rw [← hstep.1]
        exact h
      · intro tr ems hstep
        simp [trackStep, haria] at hstep
    | ok os =>
      cases os with
      | none =>
        constructor
        · intro ls' ems hstep
          simp [trackStep, haria] at hstep
        · intro tr ems hstep
          simp [trackStep, haria] at hstep
          rw [← hstep.1]
          exact h
      | some st =>
        have htr : trackStep gid (IterEnv.iter p ek fk) ls = stepStatus gid st ek fk ls := by
          simp [trackStep, haria]
        rw [htr]
        have hwf1 : wfFor gid (btUpdate gid st ls).tracker := wfFor_btUpdate gid st ls h
        have hwf2 : wfFor gid (recordFailure gid (st.errorMessage.getD "Unknown error")
            (btUpdate gid st ls).tracker) := wfFor_recordFailure _ _ _ hwf1
        constructor
        · intro ls' ems hstep
          by_cases hterm : isTerminal st.status = true
          · by_cases hc : st.status = some "complete"
            · cases fk with
              | true => simp [stepStatus, isTerminal, hterm, hc] at hstep
              | false =>
                simp [stepStatus, isTerminal, hterm, hc] at hstep
                rw [← hstep.1]
                exact hwf1
            · have hor : st.status = some "error" ∨ st.status = some "removed" := by
                rcases (by simpa [isTerminal] using hterm :
                    (st.status = some "complete" ∨ st.status = some "error") ∨
                      st.status = some "removed") with (h1 | h1) | h1
                · exact absurd h1 hc
                · exact Or.inl h1
                · exact Or.inr h1
              cases fk with
              | true =>
                simp [stepStatus, isTerminal, hterm, hc] at hstep
                rw [if_pos hor] at hstep
                simp at hstep
              | false =>
                simp [stepStatus, isTerminal, hterm, hc] at hstep
                rw [if_pos hor] at hstep
                simp at hstep
                rw [← hstep.1]
                exact hwf2
          · simp [stepStatus, hterm] at hstep
            rw [← hstep.1]
            exact hwf1
        · intro tr ems hstep
          by_cases hterm : isTerminal st.status = true
          · by_cases hc : st.status = some "complete"
            · cases fk with
              | true =>
                simp [stepStatus, isTerminal, hterm, hc] at hstep
                rw [← hstep.1]
                exact hwf1
              | false => simp [stepStatus, isTerminal, hterm, hc] at hstep
            · have hor : st.status = some "error" ∨ st.status = some "removed" := by
                rcases (by simpa [isTerminal] using hterm :
                    (st.status = some "complete" ∨ st.status = some "error") ∨
                      st.status = some "removed") with (h1 | h1) | h1
                · exact absurd h1 hc
                · exact Or.inl h1
                · exact Or.inr h1
              cases fk with
              | true =>
                simp [stepStatus, isTerminal, hterm, hc] at hstep
                rw [if_pos hor] at hstep
                simp at hstep
                rw [← hstep.1]
                exact hwf2
              | false =>
                simp [stepStatus, isTerminal, hterm, hc] at hstep
                rw [if_pos hor] at hstep
                simp at hstep
          · simp [stepStatus, hterm] at hstep

/-- Whenever the while loop terminates — on whichever exit path — the
`finally` retirement has run: the job is gone from the active table and
from every user's index. -/
theorem runTrackAux_retires (gid : String) :
    ∀ (envs : List IterEnv) (ls : LoopState) (t' : Tracker) (ems : List Emission),
      wfFor gid ls.tracker →
      runTrackAux gid envs ls = (Sum.inr t', ems) →
      t'.active gid = none ∧ ∀ u l, t'.user_downloads u = some l → gid ∉ l := by
  intro envs
  induction envs with
  | nil =>
    intro ls t' ems hwf hrun
    by_cases hact : (ls.tracker.active gid).isSome = true
    · rw [runTrackAux, if_pos hact] at hrun
      simp at hrun
    · rw [runTrackAux, if_neg hact] at hrun
      have ht' : remove_download gid ls.tracker = t' :=
        Sum.inr.inj (congrArg Prod.fst hrun)
      rw [← ht']
      exact ⟨remove_download_active_self gid ls.tracker,
        remove_download_not_in_index gid ls.tracker hwf⟩
  | cons e es ih =>
    intro ls t' ems hwf hrun
    by_cases hact : (ls.tracker.active gid).isSome = true
    · rw [runTrackAux, if_pos hact] at hrun
      rcases hss : trackStep gid e ls with ⟨out, ems0⟩
      rw [hss] at hrun
      cases out with
      | next ls' =>
        have hwf' : wfFor gid ls'.tracker := (trackStep_wf gid e ls hwf).1 ls' ems0 hss
        have h1 : (runTrackAux gid es ls').1 = Sum.inr t' := congrArg Prod.fst hrun
        have hfull : runTrackAux gid es ls' = (Sum.inr t', (runTrackAux gid es ls').2) :=
          Prod.ext h1 rfl
        exact ih ls' t' (runTrackAux gid es ls').2 hwf' hfull
      | stop tr =>
        have hwf' : wfFor gid tr := (trackStep_wf gid e ls hwf).2 tr ems0 hss
        have ht' : remove_download gid tr = t' := Sum.inr.inj (congrArg Prod.fst hrun)
        rw [← ht']
        exact ⟨remove_download_active_self gid tr,
          remove_download_not_in_index gid tr hwf'⟩
    · rw [runTrackAux, if_neg hact] at hrun
      have ht' : remove_download gid ls.tracker = t' :=
        Sum.inr.inj (congrArg Prod.fst hrun)
      rw [← ht']
      exact ⟨remove_download_active_self gid ls.tracker,
        remove_download_not_in_index gid ls.tracker hwf⟩

/-- Claim C2: in every well-formed state, whenever `track_download`
terminates — on a terminal status, on an unobtainable (falsy) status, on
a failed initial post, or because an unexpected exception escaped an
iteration — the `finally` block has retired the job: it is absent from
the active table and from every user's index by loop exit. -/
theorem track_loop_retires (gid : String) (sendOk : Bool) (envs : List IterEnv)
    (ls : LoopState) (t' : Tracker) (ems : List Emission)
    (hwf : wfFor gid ls.tracker)
    (hrun : runTrack gid sendOk envs ls = (Sum.inr t', ems)) :
    t'.active gid = none ∧ ∀ u l, t'.user_downloads u = some l → gid ∉ l := by
  cases sendOk with
  | false =>
    rw [runTrack] at hrun
    simp only [Bool.false_eq_true, if_false] at hrun
    have ht' : remove_download gid ls.tracker = t' :=
      Sum.inr.inj (congrArg Prod.fst hrun)
    rw [← ht']
    exact ⟨remove_download_active_self gid ls.tracker,
      remove_download_not_in_index gid ls.tracker hwf⟩
  | true =>
    rw [runTrack] at hrun
    simp only [if_true] at hrun
    have h1 : (runTrackAux gid envs ls).1 = Sum.inr t' := congrArg Prod.fst hrun
    have hfull : runTrackAux gid envs ls = (Sum.inr t', (runTrackAux gid envs ls).2) :=
      Prod.ext h1 rfl
    exact runTrackAux_retires gid envs ls t' (runTrackAux gid envs ls).2 hwf hfull

/-- Witness for `track_loop_retires`: a crash inside the first iteration
at the fixture state still retires job "g" from the active table. -/
theorem track_loop_retires_witness :
    (remove_download "g" ls0.tracker).active "g" = none := by
  have hwf : wfFor "g" ls0.tracker := by
    intro u l hl hm
    by_cases hu : u = 7
    · subst hu
      have hl' : ["g"] = l := Option.some.inj hl
      subst hl'
      exact ⟨⟨info0, rfl, rfl⟩, by decide⟩
    · exact absurd hl (by simp [ls0, tracker1, hu])
  exact (track_loop_retires "g" true [IterEnv.crash] ls0
    (remove_download "g" ls0.tracker)
    [Emission.post ("📦 <b>" ++ "file.bin" ++ "</b>\nStatus: Preparing..."),
      Emission.post ("❌ Tracking failed for " ++ "file.bin")] hwf rfl).1
